import Mathlib

/-!
Shallow embedding of the OpenPilot Revolution attitude estimation module
(`flight/Modules/Attitude/revolution/attitude.c`) and proofs about it.

Floating-point (`float`) values are modelled as real numbers; the float
literals of the source are kept verbatim as real literals.  Machine integers
(`int32_t`, `uint8_t`, ...) are modelled as `ℤ`/`ℕ` (no arithmetic in the
module comes near an overflow).  Each `xQueueReceive` on a single-slot sensor
queue is modelled as a boolean input flag (`true` iff a fresh sample was
delivered before the timeout), and each `...Get` call reads the corresponding
input field (latest-value semantics).  The external INSGPS numeric engine
(`insgps.c`, outside this repository's sources) is modelled as an abstract
interface, following the spec's description of it as an opaque collaborator.
-/

set_option maxHeartbeats 1000000

/-- Three-component vector of floats, modelled over `ℝ`. -/
structure V3 where
  x : ℝ
  y : ℝ
  z : ℝ

/-- Quaternion `q[0..3]` as used in `updateAttitudeComplimentary`. -/
structure V4 where
  q0 : ℝ
  q1 : ℝ
  q2 : ℝ
  q3 : ℝ

/-- Alarm level published through `AlarmsSet`/`AlarmsClear` for
`SYSTEMALARMS_ALARM_ATTITUDE`. -/
inductive Alarm where
  | Cleared : Alarm
  | Warning : Alarm
  | Error : Alarm
deriving DecidableEq

/-- The fields of `GPSPositionData` read by this module.  Latitude and
longitude are in 1e-7 degree units (stored in `int32_t` in the source,
modelled as reals since only real arithmetic is performed on them). -/
structure GPSPositionData where
  Latitude : ℝ
  Longitude : ℝ
  Altitude : ℝ
  GeoidSeparation : ℝ
  Groundspeed : ℝ
  Heading : ℝ
  Satellites : ℤ
  PDOP : ℝ

/-- The fields of `HomeLocationData` read by this module.  `SetFlag` models
`homeLocation.Set == HOMELOCATION_SET_TRUE`. -/
structure HomeLocationData where
  Latitude : ℝ
  Longitude : ℝ
  Altitude : ℝ
  Be : V3
  SetFlag : Bool

/-- The fields of `AttitudeSettingsData` used by `updateAttitudeComplimentary`.
`ZeroDuringArming` models `attitudeSettings.ZeroDuringArming ==
ATTITUDESETTINGS_ZERODURINGARMING_TRUE`. -/
structure AttitudeSettingsData where
  AccelKp : ℝ
  AccelKi : ℝ
  YawBiasRate : ℝ
  ZeroDuringArming : Bool

/-- Zero vector, `float zeros[3] = {0,0,0}`. -/
noncomputable def v3zero : V3 := ⟨0, 0, 0⟩

/-- Float literal `F_PI` from attitude.c. -/
noncomputable def F_PI : ℝ := 3.14159265358979323846

/-- Float constant `DEG2RAD = 3.141592653589793f / 180.0f` from attitude.c. -/
noncomputable def DEG2RAD : ℝ := 3.141592653589793 / 180.0

/-- Module constant `float magKi = 0.000001f`. -/
noncomputable def magKi : ℝ := 0.000001

/-- Module constant `float magKp = 0.0001f`. -/
noncomputable def magKp : ℝ := 0.0001

/-- Modelled from the spec: `CrossProduct` from `CoordinateConversions.c`
(declared in `CoordinateConversions.h`, the file itself is not under the
provided sources): the standard 3-vector cross product, used for the
small-angle accel and magnetometer error terms. -/
noncomputable def CrossProduct (v1 v2 : V3) : V3 :=
  ⟨v1.y * v2.z - v1.z * v2.y,
   v1.z * v2.x - v1.x * v2.z,
   v1.x * v2.y - v1.y * v2.x⟩

/-- Rotation matrix (row-major 3x3) as produced by `Quaternion2R`. -/
structure Mat3 where
  r00 : ℝ
  r01 : ℝ
  r02 : ℝ
  r10 : ℝ
  r11 : ℝ
  r12 : ℝ
  r20 : ℝ
  r21 : ℝ
  r22 : ℝ

/-- Modelled from the spec: `Quaternion2R` from `CoordinateConversions.c`
(not under the provided sources): the standard direction-cosine matrix of a
quaternion, used to rotate the home magnetic field `Be` into the body
frame. -/
noncomputable def Quaternion2R (q : V4) : Mat3 :=
  ⟨q.q0 * q.q0 + q.q1 * q.q1 - q.q2 * q.q2 - q.q3 * q.q3,
   2 * (q.q1 * q.q2 + q.q0 * q.q3),
   2 * (q.q1 * q.q3 - q.q0 * q.q2),
   2 * (q.q1 * q.q2 - q.q0 * q.q3),
   q.q0 * q.q0 - q.q1 * q.q1 + q.q2 * q.q2 - q.q3 * q.q3,
   2 * (q.q2 * q.q3 + q.q0 * q.q1),
   2 * (q.q1 * q.q3 + q.q0 * q.q2),
   2 * (q.q2 * q.q3 - q.q0 * q.q1),
   q.q0 * q.q0 - q.q1 * q.q1 - q.q2 * q.q2 + q.q3 * q.q3⟩

/-- Modelled from the spec: `rot_mult` from `CoordinateConversions.c`
(not under the provided sources): matrix-times-vector product. -/
noncomputable def rot_mult (m : Mat3) (v : V3) : V3 :=
  ⟨m.r00 * v.x + m.r01 * v.y + m.r02 * v.z,
   m.r10 * v.x + m.r11 * v.y + m.r12 * v.z,
   m.r20 * v.x + m.r21 * v.y + m.r22 * v.z⟩

/-!  ## Coordinate transform: `getNED` and the `T` coefficients  -/

/-- The part of `settingsUpdatedCb` (attitude.c lines 727-739) that derives
the cached `T[3]` coefficients of the linearized LLA-to-NED transform from
the cached home location:
`T[0] = alt+6.378137E6f`, `T[1] = cosf(lat)*(alt+6.378137E6f)`, `T[2] = -1`
with `lat = homeLocation.Latitude / 10.0e6f * DEG2RAD`. -/
noncomputable def settingsUpdatedCb (home : HomeLocationData) : V3 :=
  let lat := home.Latitude / 10.0e6 * DEG2RAD
  let alt := home.Altitude
  ⟨alt + 6.378137e6, Real.cos lat * (alt + 6.378137e6), -1⟩

/-- Embedding of `getNED` (attitude.c lines 696-709).  `T` is the cached
coefficient vector computed by `settingsUpdatedCb`; the first component of
the result is the `int32_t` return code (the source unconditionally returns
0), the second is the `NED` output vector. -/
noncomputable def getNED (T : V3) (gpsPosition : GPSPositionData)
    (home : HomeLocationData) : ℤ × V3 :=
  let dL : V3 :=
    ⟨(gpsPosition.Latitude - home.Latitude) / 10.0e6 * DEG2RAD,
     (gpsPosition.Longitude - home.Longitude) / 10.0e6 * DEG2RAD,
     gpsPosition.Altitude + gpsPosition.GeoidSeparation - home.Altitude⟩
  (0, ⟨T.x * dL.x, T.y * dL.y, T.z * dL.z⟩)

/-- Home location for the concrete transform check: lat 37 deg, lon -122 deg
(in 1e-7 deg units), altitude 10 m. -/
noncomputable def home37 : HomeLocationData :=
  { Latitude := 370000000, Longitude := -1220000000, Altitude := 10,
    Be := ⟨1, 0, 0⟩, SetFlag := true }

/-- GPS fix for the concrete transform check: lat 37.0001 deg, lon -122 deg,
altitude 10 m, geoid separation 0. -/
noncomputable def fix37 : GPSPositionData :=
  { Latitude := 370001000, Longitude := -1220000000, Altitude := 10,
    GeoidSeparation := 0, Groundspeed := 0, Heading := 0,
    Satellites := 9, PDOP := 1 }

/-!  ## Complementary filter: `updateAttitudeComplimentary`  -/

/-- The measured accel magnitude of attitude.c lines 306-307:
`accel_mag = sqrtf(x*x + y*y + z*z)`. -/
noncomputable def accel_mag (a : V3) : ℝ :=
  Real.sqrt (a.x * a.x + a.y * a.y + a.z * a.z)

/-- The accel-error normalization of attitude.c lines 300-310 divides each
component of `CrossProduct(accel, grot)` by `accel_mag` with no guard; the
three divisions have a nonzero denominator (hence, in IEEE float arithmetic,
produce no NaN or infinity) precisely when this predicate holds. -/
noncomputable def accelNormWellDefined (a : V3) : Prop := accel_mag a ≠ 0

open Classical in
/-- The magnetometer yaw-error computation of attitude.c lines 312-342.
`magNew` models `xQueueReceive(magQueue, &ev, 0) == pdTRUE` (a fresh
magnetometer sample was delivered this cycle); the source enters the
computation branch when the receive is `!= pdTRUE` and zeroes `mag_err` in
the `else` branch. -/
noncomputable def mag_err (magNew : Bool) (q : V4) (mag Be : V3) : V3 :=
  if magNew = false then
    let Rbe := Quaternion2R q
    let brot := rot_mult Rbe Be
    let mag_len := Real.sqrt (mag.x * mag.x + mag.y * mag.y + mag.z * mag.z)
    let magn : V3 := ⟨mag.x / mag_len, mag.y / mag_len, mag.z / mag_len⟩
    let bmag := Real.sqrt (brot.x * brot.x + brot.y * brot.y + brot.z * brot.z)
    let brotn : V3 := ⟨brot.x / bmag, brot.y / bmag, brot.z / bmag⟩
    if bmag < 1 ∨ mag_len < 1 then ⟨0, 0, 0⟩
    else CrossProduct magn brotn
  else ⟨0, 0, 0⟩

open Classical in
/-- The sign canonicalization of attitude.c lines 371-376: negate the
quaternion when `q[0] < 0`. -/
noncomputable def quatCanonicalize (v : V4) : V4 :=
  if v.q0 < 0 then ⟨-v.q0, -v.q1, -v.q2, -v.q3⟩ else v

open Classical in
/-- The renormalization and numeric-degeneracy guard of attitude.c lines
378-392: divide by `qmag = sqrtf(|q|^2)`, then reset to the identity
quaternion when `fabs(qmag) < 1.0e-3f` or `qmag != qmag` (the float NaN
test, which over `ℝ` is never true). -/
noncomputable def quatRenormalize (v : V4) : V4 :=
  let qmag := Real.sqrt (v.q0 * v.q0 + v.q1 * v.q1 + v.q2 * v.q2 + v.q3 * v.q3)
  let w : V4 := ⟨v.q0 / qmag, v.q1 / qmag, v.q2 / qmag, v.q3 / qmag⟩
  if |qmag| < 1.0e-3 ∨ qmag ≠ qmag then ⟨1, 0, 0, 0⟩ else w

/-- Per-cycle inputs of `updateAttitudeComplimentary`: the queue-delivery
flags of the five single-slot sensor queues, the tick count, flight status,
the settings object as `AttitudeSettingsGet` would read it, the latest
sensor values, the home location, the measured `dT` and the cached
LLA-to-NED coefficients `T`. -/
structure CFInputs where
  gyroNew : Bool
  accelNew : Bool
  magNew : Bool
  baroNew : Bool
  gpsNew : Bool
  tick : ℕ
  armedArming : Bool
  loadedSettings : AttitudeSettingsData
  gyros : V3
  accels : V3
  mag : V3
  gps : GPSPositionData
  home : HomeLocationData
  dT : ℝ
  T : V3

/-- State owned or published by `updateAttitudeComplimentary`: the static
`init` flag, the cached `attitudeSettings`, and the published
AttitudeActual (quaternion and derived roll/pitch/yaw), GyrosBias,
PositionActual, VelocityActual and alarm objects. -/
structure CFState where
  init : ℕ
  settings : AttitudeSettingsData
  attitude : V4
  rpy : V3
  gyrosBias : V3
  position : V3
  velocity : V3
  alarm : Alarm

open Classical in
/-- Embedding of `updateAttitudeComplimentary` (attitude.c lines 237-428).
`quat2rpy` abstracts `Quaternion2RPY` from `CoordinateConversions.c` (not
under the provided sources); the returned integer is the function's
`int32_t` result.  The baro queue flush (line 402) has no effect on any
modelled state and is omitted. -/
noncomputable def updateAttitudeComplimentary (quat2rpy : V4 → V3)
    (first_run : Bool) (inp : CFInputs) (s : CFState) : CFState × ℤ :=
  if inp.gyroNew = false then ({ s with alarm := Alarm.Warning }, -1)
  else if inp.accelNew = false then ({ s with alarm := Alarm.Warning }, -1)
  else
    let init0 : ℕ := if first_run = true then 0 else s.init
    let highGain : AttitudeSettingsData :=
      { s.settings with AccelKp := 1, AccelKi := 0.9, YawBiasRate := 0.23 }
    let settings1 : AttitudeSettingsData :=
      if init0 = 0 ∧ inp.tick < 7000 ∧ 1000 < inp.tick then highGain
      else if s.settings.ZeroDuringArming = true ∧ inp.armedArming = true then
        highGain
      else if init0 = 0 then inp.loadedSettings
      else s.settings
    let init1 : ℕ :=
      if init0 = 0 ∧ inp.tick < 7000 ∧ 1000 < inp.tick then init0
      else if s.settings.ZeroDuringArming = true ∧ inp.armedArming = true then 0
      else if init0 = 0 then 1
      else init0
    let q := s.attitude
    let grot : V3 :=
      ⟨-(2 * (q.q1 * q.q3 - q.q0 * q.q2)),
       -(2 * (q.q2 * q.q3 + q.q0 * q.q1)),
       -(q.q0 * q.q0 - q.q1 * q.q1 - q.q2 * q.q2 + q.q3 * q.q3)⟩
    let accel_errRaw := CrossProduct inp.accels grot
    let amag := accel_mag inp.accels
    let accel_err : V3 :=
      ⟨accel_errRaw.x / amag, accel_errRaw.y / amag, accel_errRaw.z / amag⟩
    let magE := mag_err inp.magNew q inp.mag inp.home.Be
    let gyrosBias1 : V3 :=
      ⟨s.gyrosBias.x + accel_err.x * settings1.AccelKi,
       s.gyrosBias.y + accel_err.y * settings1.AccelKi,
       s.gyrosBias.z + magE.z * magKi⟩
    let gx := inp.gyros.x + accel_err.x * settings1.AccelKp / inp.dT
    let gy := inp.gyros.y + accel_err.y * settings1.AccelKp / inp.dT
    let gz := inp.gyros.z + accel_err.z * settings1.AccelKp / inp.dT
              + magE.z * magKp / inp.dT
    let qdot : V4 :=
      ⟨(-q.q1 * gx - q.q2 * gy - q.q3 * gz) * inp.dT * F_PI / 180 / 2,
       (q.q0 * gx - q.q3 * gy + q.q2 * gz) * inp.dT * F_PI / 180 / 2,
       (q.q3 * gx + q.q0 * gy - q.q1 * gz) * inp.dT * F_PI / 180 / 2,
       (-q.q2 * gx + q.q1 * gy + q.q0 * gz) * inp.dT * F_PI / 180 / 2⟩
    let qi : V4 :=
      ⟨q.q0 + qdot.q0, q.q1 + qdot.q1, q.q2 + qdot.q2, q.q3 + qdot.q3⟩
    let qf := quatRenormalize (quatCanonicalize qi)
    let pv : V3 × V3 :=
      if inp.gpsNew = true ∧ inp.home.SetFlag = true then
        ((getNED inp.T inp.gps inp.home).2,
         ⟨inp.gps.Groundspeed * Real.cos (inp.gps.Heading * F_PI / 180),
          inp.gps.Groundspeed * Real.sin (inp.gps.Heading * F_PI / 180), 0⟩)
      else (s.position, s.velocity)
    ({ init := init1, settings := settings1, attitude := qf,
       rpy := quat2rpy qf, gyrosBias := gyrosBias1,
       position := pv.1, velocity := pv.2, alarm := Alarm.Cleared }, 0)

/-- Squared euclidean norm of a quaternion, written as in attitude.c line
379. -/
noncomputable def normSqV4 (v : V4) : ℝ :=
  v.q0 * v.q0 + v.q1 * v.q1 + v.q2 * v.q2 + v.q3 * v.q3

/-- Concrete witness cycle for the complementary filter: all sensor queues
deliver, level attitude, benign inputs. -/
noncomputable def cfInputs0 : CFInputs :=
  { gyroNew := true, accelNew := true, magNew := true, baroNew := true,
    gpsNew := false, tick := 500, armedArming := false,
    loadedSettings := { AccelKp := 0.05, AccelKi := 0.0001, YawBiasRate := 0.1,
                        ZeroDuringArming := false },
    gyros := ⟨0, 0, 0⟩, accels := ⟨0, 0, -1⟩, mag := ⟨0, 1, 0⟩,
    gps := fix37, home := home37, dT := 0.002, T := ⟨0, 0, 0⟩ }

/-- Concrete complementary-filter state: identity attitude, zero bias. -/
noncomputable def cfState0 : CFState :=
  { init := 1,
    settings := { AccelKp := 0.05, AccelKi := 0.0001, YawBiasRate := 0.1,
                  ZeroDuringArming := false },
    attitude := ⟨1, 0, 0, 0⟩, rpy := v3zero, gyrosBias := v3zero,
    position := v3zero, velocity := v3zero, alarm := Alarm.Cleared }

/-- Published outputs and return code of a complementary-filter cycle:
AttitudeActual (quaternion and RPY), GyrosBias, PositionActual,
VelocityActual, the alarm, and the `int32_t` result. -/
noncomputable def cfPublished (r : CFState × ℤ) :
    V4 × V3 × V3 × V3 × V3 × Alarm × ℤ :=
  (r.1.attitude, r.1.rpy, r.1.gyrosBias, r.1.position, r.1.velocity,
   r.1.alarm, r.2)

/-!  ## Staged-init INSGPS filter: `updateAttitudeINSGPS`  -/

/-- Modelled from the spec: the sensor-availability bitmask whose bit groups
`MAG_SENSORS`, `BARO_SENSOR`, `POS_SENSORS`, `HORIZ_SENSORS` and
`HORIZ_POS_SENSORS` come from `insgps.h` (not under the provided sources).
The groups select disjoint measurement rows, so the `uint16_t` mask is
modelled as a record of independent booleans; C `|=` sets fields, C `=`
replaces the whole record. -/
structure Mask where
  mag : Bool
  baro : Bool
  pos : Bool
  horiz : Bool
  horizPos : Bool
deriving DecidableEq

/-- The empty sensor mask, `uint16_t sensors = 0`. -/
def maskEmpty : Mask :=
  { mag := false, baro := false, pos := false, horiz := false,
    horizPos := false }

/-- The sensor-mask computation of attitude.c lines 619-655: start from 0,
OR in the mag and baro bits if fresh samples arrived, then in outdoor mode
with a qualifying GPS sample ASSIGN `sensors = POS_SENSORS | HORIZ_SENSORS`
(overwriting the mag/baro bits), while in indoor mode OR in
`HORIZ_SENSORS | HORIZ_POS_SENSORS`. -/
def insSensorMask (mag_updated baro_updated gps_updated outdoor_mode : Bool) :
    Mask :=
  let s1 : Mask := { maskEmpty with mag := mag_updated, baro := baro_updated }
  if gps_updated && outdoor_mode then
    { mag := false, baro := false, pos := true, horiz := true,
      horizPos := false }
  else if !outdoor_mode then { s1 with horiz := true, horizPos := true }
  else s1

/-- The externally owned navigation state `struct NavStruct Nav` exposed by
the INSGPS engine. -/
structure NavStruct where
  q : V4
  Pos : V3
  Vel : V3
  gyro_bias : V3

/-- Modelled from the spec: the opaque INSGPS numeric engine (`insgps.c`,
not under the provided sources), as the abstract interface the spec
prescribes for it: state-returning operations plus the readable `Nav`
state.  `E` is the engine's opaque internal state. -/
structure INSEngine (E : Type) where
  INSGPSInit : E → E
  INSSetMagVar : V3 → E → E
  INSSetAccelVar : V3 → E → E
  INSSetGyroVar : V3 → E → E
  INSSetMagNorth : V3 → E → E
  INSSetState : V3 → V3 → V4 → V3 → V3 → E → E
  INSResetP : List ℝ → E → E
  INSStatePrediction : V3 → V3 → ℝ → E → E
  INSCovariancePrediction : ℝ → E → E
  INSSetPosVelVar : ℝ → ℝ → E → E
  INSCorrection : V3 → V3 → V3 → ℝ → Mask → E → E
  INSSetGyroBias : V3 → E → E
  Nav : E → NavStruct

/-- The initial covariance diagonal `Pdiag[16]` of attitude.c lines 508 and
533. -/
noncomputable def Pdiag : List ℝ :=
  [25.0, 25.0, 25.0, 5.0, 5.0, 5.0, 1e-5, 1e-5, 1e-5, 1e-5, 1e-5, 1e-5,
   1e-5, 1e-4, 1e-4, 1e-4]

/-- Per-cycle inputs of `updateAttitudeINSGPS`: queue-delivery flags, latest
sensor values, the home location, calibration variances, the measured raw
`dT` and the cached LLA-to-NED coefficients. -/
structure INSInputs where
  gyroNew : Bool
  accelNew : Bool
  magNew : Bool
  baroNew : Bool
  gpsNew : Bool
  gyros : V3
  accels : V3
  mag : V3
  baroAlt : ℝ
  gps : GPSPositionData
  home : HomeLocationData
  cal_mag_var : V3
  cal_accel_var : V3
  cal_gyro_var : V3
  rawDT : ℝ
  T : V3

/-- State owned or published by `updateAttitudeINSGPS`: the statics
(`inited`, `init_stage`, the accumulated `mag_updated`/`baro_updated`/
`gps_updated` flags), the opaque engine state, and the published
AttitudeActual, GyrosBias, PositionActual, VelocityActual, NEDPosition and
alarm objects. -/
structure INSState (E : Type) where
  inited : Bool
  init_stage : ℤ
  mag_updated : Bool
  baro_updated : Bool
  gps_updated : Bool
  engine : E
  attitude : V4
  rpy : V3
  gyrosBias : V3
  position : V3
  velocity : V3
  nedPos : V3
  alarm : Alarm

open Classical in
/-- Embedding of `updateAttitudeINSGPS` (attitude.c lines 441-685).
`atan2f` abstracts the C library arctangent, `RPY2Quaternion` and
`quat2rpy` abstract the conversions from `CoordinateConversions.c` (not
under the provided sources).  The returned integer is the `int32_t`
result. -/
noncomputable def updateAttitudeINSGPS {E : Type} (eng : INSEngine E)
    (atan2f : ℝ → ℝ → ℝ) (RPY2Quaternion : V3 → V4) (quat2rpy : V4 → V3)
    (first_run outdoor_mode : Bool) (inp : INSInputs) (s : INSState E) :
    INSState E × ℤ :=
  let inited0 : Bool := if first_run = true then false else s.inited
  if inp.gyroNew = false ∨ inp.accelNew = false then
    ({ s with inited := inited0, alarm := Alarm.Warning }, -1)
  else
    let m0 : Bool := if inited0 = true then false else s.mag_updated
    let b0 : Bool := if inited0 = true then false else s.baro_updated
    let g0 : Bool := if inited0 = true then false else s.gps_updated
    let mag_updated := m0 || inp.magNew
    let baro_updated := b0 || inp.baroNew
    let gps_updated1 := g0 || (inp.gpsNew && outdoor_mode)
    let gps_updated : Bool :=
      if 7 ≤ inp.gps.Satellites ∧ inp.gps.PDOP ≤ 4.0 ∧ inp.home.SetFlag = true
      then gps_updated1 else false
    let alarm1 : Alarm :=
      if inited0 = false then Alarm.Error
      else if outdoor_mode = true ∧ inp.gps.Satellites < 7 then Alarm.Error
      else Alarm.Cleared
    if inited0 = false ∧ mag_updated = true ∧ baro_updated = true
        ∧ (gps_updated = true ∨ outdoor_mode = false) then
      let rpy0 : V3 :=
        ⟨atan2f inp.accels.x inp.accels.z * 180.0 / F_PI,
         atan2f inp.accels.y inp.accels.z * 180.0 / F_PI,
         atan2f inp.mag.x (-inp.mag.y) * 180.0 / F_PI⟩
      let e1 : E :=
        if s.init_stage = 0 ∧ outdoor_mode = false then
          eng.INSResetP Pdiag
            (eng.INSSetState ⟨0, 0, inp.baroAlt * (-1.0)⟩ v3zero
              (RPY2Quaternion rpy0) v3zero v3zero
              (eng.INSSetGyroVar inp.cal_gyro_var
                (eng.INSSetAccelVar inp.cal_accel_var
                  (eng.INSSetMagVar inp.cal_mag_var
                    (eng.INSGPSInit s.engine)))))
        else if s.init_stage = 0 ∧ outdoor_mode = true then
          eng.INSResetP Pdiag
            (eng.INSSetState (getNED inp.T inp.gps inp.home).2 v3zero
              (RPY2Quaternion rpy0) v3zero v3zero
              (eng.INSSetMagNorth inp.home.Be
                (eng.INSSetGyroVar inp.cal_gyro_var
                  (eng.INSSetAccelVar inp.cal_accel_var
                    (eng.INSSetMagVar inp.cal_mag_var
                      (eng.INSGPSInit s.engine))))))
        else if 0 < s.init_stage then
          eng.INSStatePrediction
            ⟨(inp.gyros.x + s.gyrosBias.x) * F_PI / 180.0,
             (inp.gyros.y + s.gyrosBias.y) * F_PI / 180.0,
             (inp.gyros.z + s.gyrosBias.z) * F_PI / 180.0⟩
            inp.accels 0.002 s.engine
        else s.engine
      let stage1 := s.init_stage + 1
      let inited1 : Bool := if 10 < stage1 then true else inited0
      ({ s with
          engine := e1, init_stage := stage1, inited := inited1,
          mag_updated := mag_updated, baro_updated := baro_updated,
          gps_updated := gps_updated, alarm := alarm1 }, -1)
    else if inited0 = false then
      ({ s with
          inited := inited0, mag_updated := mag_updated,
          baro_updated := baro_updated, gps_updated := gps_updated,
          alarm := alarm1 }, -1)
    else
      let dT : ℝ :=
        if 0.01 < inp.rawDT then 0.01
        else if inp.rawDT ≤ 0.001 then 0.001
        else inp.rawDT
      let gyros : V3 :=
        ⟨(inp.gyros.x + s.gyrosBias.x) * F_PI / 180.0,
         (inp.gyros.y + s.gyrosBias.y) * F_PI / 180.0,
         (inp.gyros.z + s.gyrosBias.z) * F_PI / 180.0⟩
      let e1 := eng.INSStatePrediction gyros inp.accels dT s.engine
      let nav1 := eng.Nav e1
      let e2 := eng.INSCovariancePrediction dT e1
      let sensors :=
        insSensorMask mag_updated baro_updated gps_updated outdoor_mode
      let e3 := eng.INSSetMagNorth inp.home.Be e2
      let e4 :=
        if gps_updated = true ∧ outdoor_mode = true then
          eng.INSSetPosVelVar 1.0e-2 1.0e-2 e3
        else if outdoor_mode = false then
          eng.INSSetPosVelVar 1.0e-2 1.0e-2 e3
        else e3
      let vel : V3 :=
        if gps_updated = true ∧ outdoor_mode = true then
          ⟨inp.gps.Groundspeed * Real.cos (inp.gps.Heading * F_PI / 180.0),
           inp.gps.Groundspeed * Real.sin (inp.gps.Heading * F_PI / 180.0), 0⟩
        else v3zero
      let NED : V3 :=
        if gps_updated = true ∧ outdoor_mode = true then
          (getNED inp.T inp.gps inp.home).2
        else if outdoor_mode = false then ⟨0, 0, inp.baroAlt⟩
        else v3zero
      let nedPos1 : V3 :=
        if gps_updated = true ∧ outdoor_mode = true then NED else s.nedPos
      let e5 :=
        if sensors ≠ maskEmpty then
          eng.INSCorrection inp.mag NED vel inp.baroAlt sensors e4
        else e4
      let nav2 := eng.Nav e5
      let e6 :=
        if 0.1 < |nav2.gyro_bias.x| ∨ 0.1 < |nav2.gyro_bias.y|
            ∨ 0.1 < |nav2.gyro_bias.z| then
          eng.INSSetGyroBias v3zero e5
        else e5
      ({ s with
          engine := e6, inited := inited0,
          mag_updated := mag_updated, baro_updated := baro_updated,
          gps_updated := gps_updated,
          attitude := nav1.q, rpy := quat2rpy nav1.q,
          gyrosBias := nav1.gyro_bias,
          position := nav2.Pos, velocity := nav2.Vel,
          nedPos := nedPos1, alarm := alarm1 }, 0)

/-- Boot state of the staged-init filter: `inited`/`init_stage` statics are
zero-initialized, the published attitude is the identity quaternion and the
bias is zero (see `AttitudeInitialize`). -/
noncomputable def insInitialState {E : Type} (e : E) : INSState E :=
  { inited := false, init_stage := 0, mag_updated := false,
    baro_updated := false, gps_updated := false, engine := e,
    attitude := ⟨1, 0, 0, 0⟩, rpy := v3zero, gyrosBias := v3zero,
    position := v3zero, velocity := v3zero, nedPos := v3zero,
    alarm := Alarm.Cleared }

/-- Iterated cycles of `updateAttitudeINSGPS` with `first_run = false`, one
input per cycle. -/
noncomputable def insRun {E : Type} (eng : INSEngine E) (atan2f : ℝ → ℝ → ℝ)
    (RPY2Quaternion : V3 → V4) (quat2rpy : V4 → V3) (outdoor_mode : Bool)
    (inps : ℕ → INSInputs) (s0 : INSState E) : ℕ → INSState E
  | 0 => s0
  | n + 1 =>
    (updateAttitudeINSGPS eng atan2f RPY2Quaternion quat2rpy false
      outdoor_mode (inps n)
      (insRun eng atan2f RPY2Quaternion quat2rpy outdoor_mode inps s0 n)).1

/-- All sensors required for an initialization cycle of the staged-init
filter are present: gyro, accel, mag and baro samples delivered, and in
outdoor mode additionally a fresh GPS sample meeting the quality gate
(satellites ≥ 7, PDOP ≤ 4, home location set). -/
def insSensorsPresent (outdoor_mode : Bool) (inp : INSInputs) : Prop :=
  inp.gyroNew = true ∧ inp.accelNew = true ∧ inp.magNew = true
  ∧ inp.baroNew = true
  ∧ (outdoor_mode = true →
      inp.gpsNew = true ∧ 7 ≤ inp.gps.Satellites ∧ inp.gps.PDOP ≤ 4.0
      ∧ inp.home.SetFlag = true)

/-- Trivial instantiation of the opaque engine interface, used for concrete
evaluations. -/
noncomputable def unitEngine : INSEngine Unit :=
  { INSGPSInit := fun _ => (), INSSetMagVar := fun _ _ => (),
    INSSetAccelVar := fun _ _ => (), INSSetGyroVar := fun _ _ => (),
    INSSetMagNorth := fun _ _ => (), INSSetState := fun _ _ _ _ _ _ => (),
    INSResetP := fun _ _ => (), INSStatePrediction := fun _ _ _ _ => (),
    INSCovariancePrediction := fun _ _ => (),
    INSSetPosVelVar := fun _ _ _ => (),
    INSCorrection := fun _ _ _ _ _ _ => (),
    INSSetGyroBias := fun _ _ => (),
    Nav := fun _ => ⟨⟨1, 0, 0, 0⟩, v3zero, v3zero, v3zero⟩ }

/-- Concrete staged-init cycle inputs: all sensor queues deliver, indoor
quality irrelevant, GPS quality gate satisfied. -/
noncomputable def insInputsFull : INSInputs :=
  { gyroNew := true, accelNew := true, magNew := true, baroNew := true,
    gpsNew := true, gyros := v3zero, accels := ⟨0, 0, -1⟩, mag := ⟨1, 0, 0⟩,
    baroAlt := 0, gps := fix37, home := home37, cal_mag_var := v3zero,
    cal_accel_var := v3zero, cal_gyro_var := v3zero, rawDT := 0.005,
    T := v3zero }

/-- Concrete staged-init filter state after a completed cold start:
`inited = true`, `init_stage = 11`, accumulated sensor flags set. -/
noncomputable def insStateAfterInit : INSState Unit :=
  { inited := true, init_stage := 11, mag_updated := true,
    baro_updated := true, gps_updated := false, engine := (),
    attitude := ⟨1, 0, 0, 0⟩, rpy := v3zero, gyrosBias := v3zero,
    position := v3zero, velocity := v3zero, nedPos := v3zero,
    alarm := Alarm.Cleared }

/-- C7: `getNED` computes North `= Δlat(rad) × (home alt + 6.378137e6)`,
East `= Δlon(rad) × cos(home lat) × (home alt + 6.378137e6)` and Down
`= home alt − (fix alt + geoid separation)`, where the Δ values are 1e-7-deg
units converted to radians via `DEG2RAD`; and for home `(37°, −122°, 10 m)`
and fix `(37.0001°, −122°, 10 m, geoid 0)` North is positive and equals
`1e-4 · DEG2RAD · (10 + 6.378137e6)` while East and Down are zero. -/
theorem getNED_formula_and_example :
    (∀ (gps : GPSPositionData) (home : HomeLocationData),
      ((getNED (settingsUpdatedCb home) gps home).2).x
          = (gps.Latitude - home.Latitude) / 10.0e6 * DEG2RAD
            * (home.Altitude + 6.378137e6)
        ∧ ((getNED (settingsUpdatedCb home) gps home).2).y
          = (gps.Longitude - home.Longitude) / 10.0e6 * DEG2RAD
            * (Real.cos (home.Latitude / 10.0e6 * DEG2RAD)
               * (home.Altitude + 6.378137e6))
        ∧ ((getNED (settingsUpdatedCb home) gps home).2).z
          = home.Altitude - (gps.Altitude + gps.GeoidSeparation))
    ∧ 0 < ((getNED (settingsUpdatedCb home37) fix37 home37).2).x
    ∧ ((getNED (settingsUpdatedCb home37) fix37 home37).2).x
        = 1.0e-4 * DEG2RAD * (10 + 6.378137e6)
    ∧ ((getNED (settingsUpdatedCb home37) fix37 home37).2).y = 0
    ∧ ((getNED (settingsUpdatedCb home37) fix37 home37).2).z = 0 := by
  refine ⟨fun gps home => ⟨?_, ?_, ?_⟩, ?_, ?_, ?_, ?_⟩
  · simp only [getNED, settingsUpdatedCb]; ring
  · simp only [getNED, settingsUpdatedCb]; ring
  · simp only [getNED, settingsUpdatedCb]; ring
  · simp only [getNED, settingsUpdatedCb, home37, fix37, DEG2RAD]
    norm_num
  · simp only [getNED, settingsUpdatedCb, home37, fix37, DEG2RAD]
    norm_num
  · simp only [getNED, settingsUpdatedCb, home37, fix37, DEG2RAD]
    norm_num
  · simp only [getNED, settingsUpdatedCb, home37, fix37, DEG2RAD]
    norm_num

/-- C9: `getNED` is total and unconditionally succeeds: for every cached
coefficient vector, GPS fix and home location it returns 0 (never its
advertised failure code −1) and produces all three NED components. -/
theorem getNED_total_success :
    ∀ (T : V3) (gps : GPSPositionData) (home : HomeLocationData),
      (getNED T gps home).1 = 0 ∧ (getNED T gps home).1 ≠ -1 := by
  intro T gps home
  have h0 : (getNED T gps home).1 = 0 := rfl
  refine ⟨h0, ?_⟩
  rw [h0]
  decide

theorem quatCanonicalize_nonneg (v : V4) : 0 ≤ (quatCanonicalize v).q0 := by
  unfold quatCanonicalize
  by_cases h : v.q0 < 0
  · rw [if_pos h]
    dsimp only
    linarith
  · rw [if_neg h]
    exact not_lt.mp h

theorem quatRenormalize_spec (w : V4) (h0 : 0 ≤ w.q0) :
    normSqV4 (quatRenormalize w) = 1 ∧ 0 ≤ (quatRenormalize w).q0 := by
  have hS0 : 0 ≤ w.q0 * w.q0 + w.q1 * w.q1 + w.q2 * w.q2 + w.q3 * w.q3 := by
    nlinarith [mul_self_nonneg w.q0, mul_self_nonneg w.q1,
      mul_self_nonneg w.q2, mul_self_nonneg w.q3]
  by_cases h : |Real.sqrt (w.q0 * w.q0 + w.q1 * w.q1 + w.q2 * w.q2 + w.q3 * w.q3)|
      < 1.0e-3
  · constructor
    · simp only [quatRenormalize, normSqV4]
      rw [if_pos (Or.inl h)]
      norm_num
    · simp only [quatRenormalize]
      rw [if_pos (Or.inl h)]
      norm_num
  · have hcond : ¬ (|Real.sqrt (w.q0 * w.q0 + w.q1 * w.q1 + w.q2 * w.q2
        + w.q3 * w.q3)| < 1.0e-3
        ∨ Real.sqrt (w.q0 * w.q0 + w.q1 * w.q1 + w.q2 * w.q2 + w.q3 * w.q3)
          ≠ Real.sqrt (w.q0 * w.q0 + w.q1 * w.q1 + w.q2 * w.q2 + w.q3 * w.q3)) := by
      rintro (hab | hne)
      · exact h hab
      · exact hne rfl
    have hm : (1.0e-3 : ℝ)
        ≤ Real.sqrt (w.q0 * w.q0 + w.q1 * w.q1 + w.q2 * w.q2 + w.q3 * w.q3) := by
      have hge := not_lt.mp h
      rwa [abs_of_nonneg (Real.sqrt_nonneg _)] at hge
    have hmpos : 0 < Real.sqrt (w.q0 * w.q0 + w.q1 * w.q1 + w.q2 * w.q2
        + w.q3 * w.q3) := lt_of_lt_of_le (by norm_num) hm
    have hmm : Real.sqrt (w.q0 * w.q0 + w.q1 * w.q1 + w.q2 * w.q2 + w.q3 * w.q3)
        * Real.sqrt (w.q0 * w.q0 + w.q1 * w.q1 + w.q2 * w.q2 + w.q3 * w.q3)
        = w.q0 * w.q0 + w.q1 * w.q1 + w.q2 * w.q2 + w.q3 * w.q3 :=
      Real.mul_self_sqrt hS0
    constructor
    · simp only [quatRenormalize, normSqV4]
      rw [if_neg hcond]
      dsimp only
      rw [div_mul_div_comm, div_mul_div_comm, div_mul_div_comm, div_mul_div_comm,
        div_add_div_same, div_add_div_same, div_add_div_same, hmm]
      exact div_self (by nlinarith)
    · simp only [quatRenormalize]
      rw [if_neg hcond]
      exact div_nonneg h0 (Real.sqrt_nonneg _)

/-- C1: at the end of every complementary-filter cycle that completes
successfully (gyro and accel samples both delivered), the published
AttitudeActual quaternion has unit norm and a nonnegative scalar component
`q0`; this includes the numeric-degeneracy branch, which resets the
quaternion to the identity.  (Over the real-number model the norm is exactly
1, which is within the claimed float tolerance of 1e-4.) -/
theorem updateAttitudeComplimentary_unit_quaternion (quat2rpy : V4 → V3)
    (first_run : Bool) (inp : CFInputs) (s : CFState)
    (hg : inp.gyroNew = true) (ha : inp.accelNew = true) :
    normSqV4 ((updateAttitudeComplimentary quat2rpy first_run inp s).1.attitude) = 1
    ∧ 0 ≤ ((updateAttitudeComplimentary quat2rpy first_run inp s).1.attitude).q0 := by
  simp only [updateAttitudeComplimentary, hg, Bool.true_eq_false, if_false,
    ite_false, if_neg, ha]
  exact quatRenormalize_spec _ (quatCanonicalize_nonneg _)

/-- Witness for C1: a concrete successful cycle satisfying the hypotheses. -/
theorem updateAttitudeComplimentary_unit_quaternion_witness :
    cfInputs0.gyroNew = true ∧ cfInputs0.accelNew = true
    ∧ (normSqV4 ((updateAttitudeComplimentary (fun _ => v3zero) false cfInputs0
          cfState0).1.attitude) = 1
       ∧ 0 ≤ ((updateAttitudeComplimentary (fun _ => v3zero) false cfInputs0
          cfState0).1.attitude).q0) :=
  ⟨rfl, rfl,
   updateAttitudeComplimentary_unit_quaternion (fun _ => v3zero) false cfInputs0
     cfState0 rfl rfl⟩

/-- C2 (bug in attitude.c line 312): the magnetometer receive test is
inverted.  `mag_err` is forced to zero exactly when a fresh magnetometer
sample WAS delivered this cycle (`magNew = true`), and the magnetometer
correction (from stale data) is computed only on cycles with no fresh
sample.  First conjunct: any cycle with a fresh sample has zero yaw error;
second conjunct: a concrete no-fresh-sample cycle (identity attitude, home
field north, measured field east) produces the nonzero yaw error
`(0, 0, -1)`. -/
theorem mag_err_inverted_presence_test :
    (∀ (q : V4) (mag Be : V3), mag_err true q mag Be = ⟨0, 0, 0⟩)
    ∧ mag_err false ⟨1, 0, 0, 0⟩ ⟨0, 1, 0⟩ ⟨1, 0, 0⟩ = ⟨0, 0, -1⟩ := by
  constructor
  · intro q mag Be
    simp [mag_err]
  · simp only [mag_err, Quaternion2R, rot_mult, CrossProduct]
    norm_num [Real.sqrt_one]

/-- C4 counterexample: the claim that the accel-error normalization is
guarded against zero magnitude for every accel input fails: the source
(attitude.c lines 306-310) has no guard, and for the zero accel vector the
denominator `accel_mag` is exactly 0 (in IEEE float arithmetic the three
divisions are then 0/0 = NaN). -/
theorem accelNorm_not_always_defined :
    ¬ (∀ a : V3, accelNormWellDefined a) := by
  intro h
  have hz : accel_mag ⟨0, 0, 0⟩ = 0 := by
    simp [accel_mag]
  exact h ⟨0, 0, 0⟩ hz

/-- C4 amended: the small-angle tilt error is divided componentwise by the
measured accel magnitude with no zero-magnitude guard; the divisions have a
nonzero denominator exactly when the measured accel vector is nonzero.  (For
the zero vector the code performs 0/0, i.e. NaN in float arithmetic.) -/
theorem accelNormWellDefined_iff (a : V3) :
    accelNormWellDefined a ↔ ¬ (a.x = 0 ∧ a.y = 0 ∧ a.z = 0) := by
  unfold accelNormWellDefined accel_mag
  constructor
  · rintro h ⟨hx, hy, hz⟩
    apply h
    rw [hx, hy, hz]
    simp
  · intro h
    have hS0 : (0:ℝ) ≤ a.x * a.x + a.y * a.y + a.z * a.z := by
      nlinarith [mul_self_nonneg a.x, mul_self_nonneg a.y, mul_self_nonneg a.z]
    have hS : 0 < a.x * a.x + a.y * a.y + a.z * a.z := by
      rcases hS0.lt_or_eq with hlt | heq
      · exact hlt
      · exfalso
        apply h
        have hx : a.x * a.x = 0 := by
          nlinarith [mul_self_nonneg a.y, mul_self_nonneg a.z]
        have hy : a.y * a.y = 0 := by
          nlinarith [mul_self_nonneg a.x, mul_self_nonneg a.z]
        have hz : a.z * a.z = 0 := by
          nlinarith [mul_self_nonneg a.x, mul_self_nonneg a.y]
        exact ⟨mul_self_eq_zero.mp hx, mul_self_eq_zero.mp hy,
          mul_self_eq_zero.mp hz⟩
    exact ne_of_gt (Real.sqrt_pos.mpr hS)

/-- C10: the complementary filter's published outputs are independent of the
configured `YawBiasRate`: two cycles whose cached settings and freshly loaded
settings differ only in `YawBiasRate` (all sensor inputs and all other state
identical) publish identical outputs and return the same code.  The yaw
corrections use only the module constants `magKi` and `magKp`;
`YawBiasRate` is only ever assigned (to 0.23 in high-gain mode), never
read. -/
theorem updateAttitudeComplimentary_yawBiasRate_independent
    (quat2rpy : V4 → V3) (first_run : Bool) (inp : CFInputs) (s : CFState)
    (y1 y2 : ℝ) :
    cfPublished (updateAttitudeComplimentary quat2rpy first_run
      { inp with loadedSettings := { inp.loadedSettings with YawBiasRate := y1 } }
      { s with settings := { s.settings with YawBiasRate := y1 } })
    = cfPublished (updateAttitudeComplimentary quat2rpy first_run
      { inp with loadedSettings := { inp.loadedSettings with YawBiasRate := y2 } }
      { s with settings := { s.settings with YawBiasRate := y2 } }) := by
  simp only [cfPublished, updateAttitudeComplimentary]
  split_ifs <;> simp

/-- C8 counterexample: it is not the case that the sensor mask always has
the mag bit set exactly when a fresh magnetometer sample arrived and the
baro bit exactly when a fresh baro sample arrived: in outdoor mode with a
qualifying GPS sample (`insSensorMask true true true true`), the assignment
`sensors = POS_SENSORS | HORIZ_SENSORS` (attitude.c line 630) discards
both bits. -/
theorem insSensorMask_claim_false :
    ¬ (∀ m b g o : Bool,
        (insSensorMask m b g o).mag = m ∧ (insSensorMask m b g o).baro = b) := by
  decide

/-- C8 amended: full characterization of the sensor mask passed to
`INSCorrection`: in outdoor mode with a qualifying GPS sample the mask is
overwritten to exactly the position and horizontal-velocity bits (mag and
baro bits discarded); in indoor mode the weak-pull horizontal and
horizontal-position bits are ORed onto the mag/baro bits; in outdoor mode
without a qualifying GPS sample the mask holds exactly the mag/baro bits. -/
theorem insSensorMask_characterization :
    ∀ m b g o : Bool,
      insSensorMask m b g o =
        if g && o then
          { mag := false, baro := false, pos := true, horiz := true,
            horizPos := false }
        else if !o then
          { mag := m, baro := b, pos := false, horiz := true,
            horizPos := true }
        else
          { mag := m, baro := b, pos := false, horiz := false,
            horizPos := false } := by
  decide

/-- C3 (bug in attitude.c): `first_run` only clears the `inited` static
(line 467); the stage counter `init_stage` (line 433) is never reset to 0
anywhere in the module.  Concretely, invoking the staged-init filter with
`first_run = true` on the state left after a completed cold start
(`init_stage = 11`) runs a single catch-up initialization cycle: the stage
counter moves to 12 (never 0), `inited` is immediately true again, and the
stage-0 engine reset (`INSGPSInit`/`INSSetState`/`INSResetP`) is never
re-executed. -/
theorem updateAttitudeINSGPS_first_run_keeps_stage :
    (updateAttitudeINSGPS unitEngine (fun _ _ => 0) (fun _ => ⟨1, 0, 0, 0⟩)
      (fun _ => v3zero) true false insInputsFull
      insStateAfterInit).1.init_stage = 12
    ∧ (updateAttitudeINSGPS unitEngine (fun _ _ => 0) (fun _ => ⟨1, 0, 0, 0⟩)
      (fun _ => v3zero) true false insInputsFull
      insStateAfterInit).1.inited = true
    ∧ (updateAttitudeINSGPS unitEngine (fun _ _ => 0) (fun _ => ⟨1, 0, 0, 0⟩)
      (fun _ => v3zero) true false insInputsFull
      insStateAfterInit).2 = -1 := by
  refine ⟨?_, ?_, ?_⟩ <;>
    norm_num [updateAttitudeINSGPS, insInputsFull, insStateAfterInit,
      unitEngine, fix37, home37]

/-- C6: in both filters, a missing gyro or accel sample (queue receive
timeout) makes the cycle set the attitude alarm to Warning and return −1
with every published estimate (AttitudeActual quaternion and RPY,
GyrosBias, PositionActual, VelocityActual, and for the staged-init filter
also NEDPosition) unchanged from the prior cycle. -/
theorem sensor_timeout_warning_unchanged {E : Type} (eng : INSEngine E)
    (atan2f : ℝ → ℝ → ℝ) (RPY2Quaternion : V3 → V4)
    (quat2rpyC quat2rpyI : V4 → V3)
    (first_runC first_runI outdoor_mode : Bool)
    (inp : CFInputs) (s : CFState) (inp2 : INSInputs) (s2 : INSState E)
    (h1 : inp.gyroNew = false ∨ inp.accelNew = false)
    (h2 : inp2.gyroNew = false ∨ inp2.accelNew = false) :
    ((updateAttitudeComplimentary quat2rpyC first_runC inp s).2 = -1
     ∧ (updateAttitudeComplimentary quat2rpyC first_runC inp s).1.alarm
        = Alarm.Warning
     ∧ (updateAttitudeComplimentary quat2rpyC first_runC inp s).1.attitude
        = s.attitude
     ∧ (updateAttitudeComplimentary quat2rpyC first_runC inp s).1.rpy = s.rpy
     ∧ (updateAttitudeComplimentary quat2rpyC first_runC inp s).1.gyrosBias
        = s.gyrosBias
     ∧ (updateAttitudeComplimentary quat2rpyC first_runC inp s).1.position
        = s.position
     ∧ (updateAttitudeComplimentary quat2rpyC first_runC inp s).1.velocity
        = s.velocity)
    ∧ ((updateAttitudeINSGPS eng atan2f RPY2Quaternion quat2rpyI first_runI
          outdoor_mode inp2 s2).2 = -1
       ∧ (updateAttitudeINSGPS eng atan2f RPY2Quaternion quat2rpyI first_runI
          outdoor_mode inp2 s2).1.alarm = Alarm.Warning
       ∧ (updateAttitudeINSGPS eng atan2f RPY2Quaternion quat2rpyI first_runI
          outdoor_mode inp2 s2).1.attitude = s2.attitude
       ∧ (updateAttitudeINSGPS eng atan2f RPY2Quaternion quat2rpyI first_runI
          outdoor_mode inp2 s2).1.rpy = s2.rpy
       ∧ (updateAttitudeINSGPS eng atan2f RPY2Quaternion quat2rpyI first_runI
          outdoor_mode inp2 s2).1.gyrosBias = s2.gyrosBias
       ∧ (updateAttitudeINSGPS eng atan2f RPY2Quaternion quat2rpyI first_runI
          outdoor_mode inp2 s2).1.position = s2.position
       ∧ (updateAttitudeINSGPS eng atan2f RPY2Quaternion quat2rpyI first_runI
          outdoor_mode inp2 s2).1.velocity = s2.velocity
       ∧ (updateAttitudeINSGPS eng atan2f RPY2Quaternion quat2rpyI first_runI
          outdoor_mode inp2 s2).1.nedPos = s2.nedPos) := by
  constructor
  · have hred : updateAttitudeComplimentary quat2rpyC first_runC inp s
        = ({ s with alarm := Alarm.Warning }, -1) := by
      rcases h1 with h | h
      · simp [updateAttitudeComplimentary, h]
      · by_cases hg : inp.gyroNew = false
        · simp [updateAttitudeComplimentary, hg]
        · simp [updateAttitudeComplimentary, hg, h]
    rw [hred]
    simp
  · have hred : updateAttitudeINSGPS eng atan2f RPY2Quaternion quat2rpyI
        first_runI outdoor_mode inp2 s2
        = ({ s2 with
             inited := if first_runI = true then false else s2.inited,
             alarm := Alarm.Warning }, -1) := by
      simp [updateAttitudeINSGPS, h2]
    rw [hred]
    simp

/-- Witness for C6: concrete cycles of both filters in which the gyro queue
times out. -/
theorem sensor_timeout_warning_unchanged_witness :
    (({ cfInputs0 with gyroNew := false } : CFInputs).gyroNew = false
      ∨ ({ cfInputs0 with gyroNew := false } : CFInputs).accelNew = false)
    ∧ (({ insInputsFull with gyroNew := false } : INSInputs).gyroNew = false
      ∨ ({ insInputsFull with gyroNew := false } : INSInputs).accelNew = false)
    ∧ (((updateAttitudeComplimentary (fun _ => v3zero) false
          { cfInputs0 with gyroNew := false } cfState0).2 = -1
        ∧ (updateAttitudeComplimentary (fun _ => v3zero) false
          { cfInputs0 with gyroNew := false } cfState0).1.alarm = Alarm.Warning
        ∧ (updateAttitudeComplimentary (fun _ => v3zero) false
          { cfInputs0 with gyroNew := false } cfState0).1.attitude
            = cfState0.attitude
        ∧ (updateAttitudeComplimentary (fun _ => v3zero) false
          { cfInputs0 with gyroNew := false } cfState0).1.rpy = cfState0.rpy
        ∧ (updateAttitudeComplimentary (fun _ => v3zero) false
          { cfInputs0 with gyroNew := false } cfState0).1.gyrosBias
            = cfState0.gyrosBias
        ∧ (updateAttitudeComplimentary (fun _ => v3zero) false
          { cfInputs0 with gyroNew := false } cfState0).1.position
            = cfState0.position
        ∧ (updateAttitudeComplimentary (fun _ => v3zero) false
          { cfInputs0 with gyroNew := false } cfState0).1.velocity
            = cfState0.velocity)
      ∧ ((updateAttitudeINSGPS unitEngine (fun _ _ => 0) (fun _ => ⟨1, 0, 0, 0⟩)
          (fun _ => v3zero) false false { insInputsFull with gyroNew := false }
          insStateAfterInit).2 = -1
        ∧ (updateAttitudeINSGPS unitEngine (fun _ _ => 0) (fun _ => ⟨1, 0, 0, 0⟩)
          (fun _ => v3zero) false false { insInputsFull with gyroNew := false }
          insStateAfterInit).1.alarm = Alarm.Warning
        ∧ (updateAttitudeINSGPS unitEngine (fun _ _ => 0) (fun _ => ⟨1, 0, 0, 0⟩)
          (fun _ => v3zero) false false { insInputsFull with gyroNew := false }
          insStateAfterInit).1.attitude = insStateAfterInit.attitude
        ∧ (updateAttitudeINSGPS unitEngine (fun _ _ => 0) (fun _ => ⟨1, 0, 0, 0⟩)
          (fun _ => v3zero) false false { insInputsFull with gyroNew := false }
          insStateAfterInit).1.rpy = insStateAfterInit.rpy
        ∧ (updateAttitudeINSGPS unitEngine (fun _ _ => 0) (fun _ => ⟨1, 0, 0, 0⟩)
          (fun _ => v3zero) false false { insInputsFull with gyroNew := false }
          insStateAfterInit).1.gyrosBias = insStateAfterInit.gyrosBias
        ∧ (updateAttitudeINSGPS unitEngine (fun _ _ => 0) (fun _ => ⟨1, 0, 0, 0⟩)
          (fun _ => v3zero) false false { insInputsFull with gyroNew := false }
          insStateAfterInit).1.position = insStateAfterInit.position
        ∧ (updateAttitudeINSGPS unitEngine (fun _ _ => 0) (fun _ => ⟨1, 0, 0, 0⟩)
          (fun _ => v3zero) false false { insInputsFull with gyroNew := false }
          insStateAfterInit).1.velocity = insStateAfterInit.velocity
        ∧ (updateAttitudeINSGPS unitEngine (fun _ _ => 0) (fun _ => ⟨1, 0, 0, 0⟩)
          (fun _ => v3zero) false false { insInputsFull with gyroNew := false }
          insStateAfterInit).1.nedPos = insStateAfterInit.nedPos)) :=
  ⟨Or.inl rfl, Or.inl rfl,
   sensor_timeout_warning_unchanged unitEngine (fun _ _ => 0)
     (fun _ => ⟨1, 0, 0, 0⟩) (fun _ => v3zero) (fun _ => v3zero) false false
     false { cfInputs0 with gyroNew := false } cfState0
     { insInputsFull with gyroNew := false } insStateAfterInit
     (Or.inl rfl) (Or.inl rfl)⟩

theorem ins_init_step {E : Type} (eng : INSEngine E) (atan2f : ℝ → ℝ → ℝ)
    (RPY2Quaternion : V3 → V4) (quat2rpy : V4 → V3) (outdoor_mode : Bool)
    (inp : INSInputs) (s : INSState E) (r : INSState E × ℤ)
    (hr : r = updateAttitudeINSGPS eng atan2f RPY2Quaternion quat2rpy false
      outdoor_mode inp s)
    (hin : s.inited = false) (hpres : insSensorsPresent outdoor_mode inp) :
    r.2 = -1 ∧ r.1.init_stage = s.init_stage + 1
    ∧ r.1.inited = (if 10 < s.init_stage + 1 then true else false)
    ∧ r.1.attitude = s.attitude ∧ r.1.rpy = s.rpy
    ∧ r.1.gyrosBias = s.gyrosBias ∧ r.1.position = s.position
    ∧ r.1.velocity = s.velocity ∧ r.1.nedPos = s.nedPos := by
  obtain ⟨hg, ha, hm, hb, hgps⟩ := hpres
  subst hr
  cases houtdoor : outdoor_mode with
  | false =>
    simp [updateAttitudeINSGPS, hg, ha, hm, hb, hin]
  | true =>
    obtain ⟨hgn, hsat, hpdop, hset⟩ := hgps houtdoor
    simp [updateAttitudeINSGPS, hg, ha, hm, hb, hin, hgn, hsat, hpdop, hset]

theorem ins_running_step {E : Type} (eng : INSEngine E) (atan2f : ℝ → ℝ → ℝ)
    (RPY2Quaternion : V3 → V4) (quat2rpy : V4 → V3) (outdoor_mode : Bool)
    (inp : INSInputs) (s : INSState E)
    (hin : s.inited = true) (hg : inp.gyroNew = true)
    (ha : inp.accelNew = true) :
    (updateAttitudeINSGPS eng atan2f RPY2Quaternion quat2rpy false
      outdoor_mode inp s).2 = 0
    ∧ ∃ e' : E,
      (updateAttitudeINSGPS eng atan2f RPY2Quaternion quat2rpy false
        outdoor_mode inp s).1.attitude = (eng.Nav e').q := by
  constructor
  · simp [updateAttitudeINSGPS, hg, ha, hin]
  · simp only [updateAttitudeINSGPS, hg, ha, hin]
    simp
    exact ⟨_, rfl⟩

/-- C5: starting from the boot state of the staged-init filter
(`init_stage = 0`, not inited), 11 consecutive cycles with all required
sensors present each return the not-ready result −1 while leaving the
published AttitudeActual, PositionActual and VelocityActual untouched, the
stage counter incrementing by exactly one per cycle (stages 0 through 10);
after the 11th cycle the filter is inited (Running), and the 12th cycle
returns 0 and publishes the attitude read back from the engine. -/
theorem updateAttitudeINSGPS_staged_init_protocol {E : Type}
    (eng : INSEngine E) (atan2f : ℝ → ℝ → ℝ) (RPY2Quaternion : V3 → V4)
    (quat2rpy : V4 → V3) (outdoor_mode : Bool) (inps : ℕ → INSInputs) (e : E)
    (hpres : ∀ i, i < 12 → insSensorsPresent outdoor_mode (inps i)) :
    (∀ k, k < 11 →
      (updateAttitudeINSGPS eng atan2f RPY2Quaternion quat2rpy false
        outdoor_mode (inps k)
        (insRun eng atan2f RPY2Quaternion quat2rpy outdoor_mode inps
          (insInitialState e) k)).2 = -1
      ∧ (insRun eng atan2f RPY2Quaternion quat2rpy outdoor_mode inps
          (insInitialState e) (k + 1)).attitude = ⟨1, 0, 0, 0⟩
      ∧ (insRun eng atan2f RPY2Quaternion quat2rpy outdoor_mode inps
          (insInitialState e) (k + 1)).position = v3zero
      ∧ (insRun eng atan2f RPY2Quaternion quat2rpy outdoor_mode inps
          (insInitialState e) (k + 1)).velocity = v3zero
      ∧ (insRun eng atan2f RPY2Quaternion quat2rpy outdoor_mode inps
          (insInitialState e) (k + 1)).init_stage = (k : ℤ) + 1
      ∧ (insRun eng atan2f RPY2Quaternion quat2rpy outdoor_mode inps
          (insInitialState e) k).inited = false)
    ∧ (insRun eng atan2f RPY2Quaternion quat2rpy outdoor_mode inps
        (insInitialState e) 11).inited = true
    ∧ (updateAttitudeINSGPS eng atan2f RPY2Quaternion quat2rpy false
        outdoor_mode (inps 11)
        (insRun eng atan2f RPY2Quaternion quat2rpy outdoor_mode inps
          (insInitialState e) 11)).2 = 0
    ∧ ∃ e' : E,
        (updateAttitudeINSGPS eng atan2f RPY2Quaternion quat2rpy false
          outdoor_mode (inps 11)
          (insRun eng atan2f RPY2Quaternion quat2rpy outdoor_mode inps
            (insInitialState e) 11)).1.attitude = (eng.Nav e').q := by
  have inv : ∀ k, k ≤ 11 →
      (insRun eng atan2f RPY2Quaternion quat2rpy outdoor_mode inps
        (insInitialState e) k).init_stage = (k : ℤ)
      ∧ (insRun eng atan2f RPY2Quaternion quat2rpy outdoor_mode inps
          (insInitialState e) k).inited
          = (if 10 < (k : ℤ) then true else false)
      ∧ (insRun eng atan2f RPY2Quaternion quat2rpy outdoor_mode inps
          (insInitialState e) k).attitude = ⟨1, 0, 0, 0⟩
      ∧ (insRun eng atan2f RPY2Quaternion quat2rpy outdoor_mode inps
          (insInitialState e) k).rpy = v3zero
      ∧ (insRun eng atan2f RPY2Quaternion quat2rpy outdoor_mode inps
          (insInitialState e) k).gyrosBias = v3zero
      ∧ (insRun eng atan2f RPY2Quaternion quat2rpy outdoor_mode inps
          (insInitialState e) k).position = v3zero
      ∧ (insRun eng atan2f RPY2Quaternion quat2rpy outdoor_mode inps
          (insInitialState e) k).velocity = v3zero
      ∧ (insRun eng atan2f RPY2Quaternion quat2rpy outdoor_mode inps
          (insInitialState e) k).nedPos = v3zero := by
    intro k
    induction k with
    | zero =>
      intro _
      norm_num [insRun, insInitialState]
    | succ n ih =>
      intro hn
      have hinv := ih (by omega)
      have hinited : (insRun eng atan2f RPY2Quaternion quat2rpy outdoor_mode
          inps (insInitialState e) n).inited = false := by
        rw [hinv.2.1, if_neg (by omega)]
      have hstep := ins_init_step eng atan2f RPY2Quaternion quat2rpy
        outdoor_mode (inps n)
        (insRun eng atan2f RPY2Quaternion quat2rpy outdoor_mode inps
          (insInitialState e) n) _ rfl hinited (hpres n (by omega))
      have hrun : insRun eng atan2f RPY2Quaternion quat2rpy outdoor_mode inps
          (insInitialState e) (n + 1)
          = (updateAttitudeINSGPS eng atan2f RPY2Quaternion quat2rpy false
            outdoor_mode (inps n)
            (insRun eng atan2f RPY2Quaternion quat2rpy outdoor_mode inps
              (insInitialState e) n)).1 := rfl
      have hcast : ((n + 1 : ℕ) : ℤ) = (n : ℤ) + 1 := by push_cast; ring
      rw [hrun]
      refine ⟨?_, ?_, ?_, ?_, ?_, ?_, ?_, ?_⟩
      · rw [hstep.2.1, hinv.1, hcast]
      · rw [hstep.2.2.1, hinv.1, hcast]
      · rw [hstep.2.2.2.1, hinv.2.2.1]
      · rw [hstep.2.2.2.2.1, hinv.2.2.2.1]
      · rw [hstep.2.2.2.2.2.1, hinv.2.2.2.2.1]
      · rw [hstep.2.2.2.2.2.2.1, hinv.2.2.2.2.2.1]
      · rw [hstep.2.2.2.2.2.2.2.1, hinv.2.2.2.2.2.2.1]
      · rw [hstep.2.2.2.2.2.2.2.2, hinv.2.2.2.2.2.2.2]
  have hin11 : (insRun eng atan2f RPY2Quaternion quat2rpy outdoor_mode inps
      (insInitialState e) 11).inited = true := by
    rw [(inv 11 (le_refl _)).2.1, if_pos (by norm_num)]
  refine ⟨?_, hin11, ?_, ?_⟩
  · intro k hk
    have hki := inv k (by omega)
    have hinited : (insRun eng atan2f RPY2Quaternion quat2rpy outdoor_mode
        inps (insInitialState e) k).inited = false := by
      rw [hki.2.1, if_neg (by omega)]
    have hstep := ins_init_step eng atan2f RPY2Quaternion quat2rpy
      outdoor_mode (inps k)
      (insRun eng atan2f RPY2Quaternion quat2rpy outdoor_mode inps
        (insInitialState e) k) _ rfl hinited (hpres k (by omega))
    have hk1 := inv (k + 1) (by omega)
    have hcast : ((k + 1 : ℕ) : ℤ) = (k : ℤ) + 1 := by push_cast; ring
    refine ⟨hstep.1, hk1.2.2.1, hk1.2.2.2.2.2.1, hk1.2.2.2.2.2.2.1, ?_,
      hinited⟩
    rw [hk1.1, hcast]
  · exact (ins_running_step eng atan2f RPY2Quaternion quat2rpy outdoor_mode
      (inps 11)
      (insRun eng atan2f RPY2Quaternion quat2rpy outdoor_mode inps
        (insInitialState e) 11) hin11 (hpres 11 (by omega)).1
      (hpres 11 (by omega)).2.1).1
  · exact (ins_running_step eng atan2f RPY2Quaternion quat2rpy outdoor_mode
      (inps 11)
      (insRun eng atan2f RPY2Quaternion quat2rpy outdoor_mode inps
        (insInitialState e) 11) hin11 (hpres 11 (by omega)).1
      (hpres 11 (by omega)).2.1).2

/-- Witness for C5: the concrete indoor all-sensors-present cycle satisfies
the presence hypothesis, and the staged-init filter is Running after the
11th cycle. -/
theorem updateAttitudeINSGPS_staged_init_protocol_witness :
    (∀ i, i < 12 →
      insSensorsPresent false ((fun _ => insInputsFull) i))
    ∧ (insRun unitEngine (fun _ _ => 0) (fun _ => ⟨1, 0, 0, 0⟩)
        (fun _ => v3zero) false (fun _ => insInputsFull)
        (insInitialState ()) 11).inited = true :=
  have hpres : ∀ i, i < 12 →
      insSensorsPresent false ((fun _ => insInputsFull) i) := by
    intro i _
    simp [insSensorsPresent, insInputsFull]
  ⟨hpres,
   (updateAttitudeINSGPS_staged_init_protocol unitEngine (fun _ _ => 0)
     (fun _ => ⟨1, 0, 0, 0⟩) (fun _ => v3zero) false (fun _ => insInputsFull)
     () hpres).2.1⟩
